import Mathlib

/-!
# packwiz, package curseforge: request.go

A shallow embedding of `modIDFromSlug` and `getModInfo` and of the data they
exchange with the two remote services.

Go values are embedded as follows.

* `int` is `Int` (no arithmetic is done on identifiers), `string` is `String`,
  a slice is a `List`, `bool` is `Bool`.
* A Go function returning `(T, error)` returns the pair `T × Option GoError`,
  `none` being the `nil` error: both components are observable.
* The library calls the two functions make (`json.Marshal`, `http.NewRequest`,
  `client.Do`, `json.NewDecoder(resp.Body).Decode`) are not part of the
  repository. They are the fields of `Runtime`, and every theorem quantifies
  over all runtimes.
-/

namespace Curseforge

/-! ## Errors -/

/-- Go `error` values that can reach the two functions. -/
inductive GoError where
  /-- The sentinel `io.EOF`. -/
  | EOF
  /-- The value of `errors.New(s)` and of `fmt.Errorf` after formatting to `s`. -/
  | errorString (s : String)
  /-- Any other error value made by a library (`net/http`, `net/url`,
  `encoding/json`), identified by its package and text. -/
  | library (pkg : String) (text : String)
deriving DecidableEq, Repr

/-- The method `Error()` of an error value: its text. -/
def GoError.Error : GoError → String
  | .EOF => "EOF"
  | .errorString s => s
  | .library _ text => text

/-! ## Data model (lines 13-31, 89-121, 163-176) -/

/-- The anonymous struct `Variables` of `addonSlugRequest`. -/
structure addonSlugRequest.VariablesT where
  Slug : String
deriving DecidableEq, Repr

/-- The struct `addonSlugRequest`, sent to the CurseProxy GraphQL api. -/
structure addonSlugRequest where
  Query : String
  Variables : addonSlugRequest.VariablesT
deriving DecidableEq, Repr

/-- The element type of `addonSlugResponse.Data.Addons`. -/
structure addonSlugResponse.AddonT where
  ID : Int
deriving DecidableEq, Repr

/-- The anonymous struct `Data` of `addonSlugResponse`. -/
structure addonSlugResponse.DataT where
  Addons : List addonSlugResponse.AddonT
deriving DecidableEq, Repr

/-- The struct `addonSlugResponse`, received from the CurseProxy GraphQL api. -/
structure addonSlugResponse where
  Data : addonSlugResponse.DataT
  Exception : String
  Message : String
  Stacktrace : List String
deriving DecidableEq, Repr

/-- The zero value of `addonSlugResponse` (`var response addonSlugResponse`). -/
def addonSlugResponse.zero : addonSlugResponse :=
  { Data := { Addons := [] }, Exception := "", Message := "", Stacktrace := [] }

/-- The struct `curseMetaError`, an error returned by the Staging CurseMeta API. -/
structure curseMetaError where
  Description : String
  Error : Bool
  Status : Int
deriving DecidableEq, Repr

/-- Zero value of `curseMetaError`. -/
def curseMetaError.zero : curseMetaError :=
  { Description := "", Error := false, Status := 0 }

/-- The constant `fileTypeRelease` (`iota + 1`, first of its block). -/
def fileTypeRelease : Int := 0 + 1
/-- The constant `fileTypeBeta`. -/
def fileTypeBeta : Int := 1 + 1
/-- The constant `fileTypeAlpha`. -/
def fileTypeAlpha : Int := 2 + 1

/-- The constant `dependencyTypeRequired` (`iota + 1`, first of its block). -/
def dependencyTypeRequired : Int := 0 + 1
/-- The constant `dependencyTypeOptional`. -/
def dependencyTypeOptional : Int := 1 + 1

/-- Go's `time.Time` as far as a decoded value is concerned: an instant given
by seconds and nanoseconds since the epoch, with the zone offset in seconds. -/
structure Time where
  sec : Int
  nsec : Nat
  zoneOffset : Int
deriving DecidableEq, Repr

/-- The element type of `modFile.Dependencies`; the Go field `Type` is
written `Type_`, `Type` being reserved. -/
structure modFile.DependencyT where
  ModID : Int
  Type_ : Int
deriving DecidableEq, Repr

/-- The struct `modFile`. -/
structure modFile where
  ID : Int
  FileName : String
  FriendlyName : String
  Date : Time
  Length : Int
  FileType : Int
  GameVersions : List String
  Dependencies : List modFile.DependencyT
deriving DecidableEq, Repr

/-- The element type of `modInfo.GameVersionLatestFiles`. -/
structure modInfo.GameVersionLatestFileT where
  GameVersion : String
  ID : Int
  Name : String
  FileType : Int
deriving DecidableEq, Repr

/-- The struct `modInfo`, a subset of the deserialised response of the Staging
CurseMeta API for mods. -/
structure modInfo where
  Name : String
  Slug : String
  ID : Int
  LatestFiles : List modFile
  GameVersionLatestFiles : List modInfo.GameVersionLatestFileT
deriving DecidableEq, Repr

/-- The composite literal `modInfo{}`: the zero value. -/
def modInfo.zero : modInfo :=
  { Name := "", Slug := "", ID := 0, LatestFiles := [], GameVersionLatestFiles := [] }

/-- The local type of `response` in `getModInfo`: a struct embedding `modInfo`
and `curseMetaError`, whose fields are promoted. -/
structure getModInfo.ResponseT where
  modInfo : modInfo
  curseMetaError : curseMetaError
deriving DecidableEq, Repr

/-- Zero value of the local response struct of `getModInfo`. -/
def getModInfo.ResponseT.zero : getModInfo.ResponseT :=
  { modInfo := modInfo.zero, curseMetaError := curseMetaError.zero }

/-! ## The library boundary -/

/-- An `http.Request` as the two functions build it: method, URL, header
entries and the bytes of the body (`none` for a `nil` body). -/
structure HttpRequest where
  Method : String
  URL : String
  Header : List (String × String)
  Body : Option String
deriving DecidableEq, Repr

/-- The call `req.Header.Set(key, value)`: the entry of `key` is replaced. -/
def HttpRequest.HeaderSet (req : HttpRequest) (key value : String) : HttpRequest :=
  { req with Header := req.Header.filter (fun kv => kv.1 ≠ key) ++ [(key, value)] }

/-- An `http.Response` as far as the two functions read it: the body stream. -/
structure HttpResponse where
  Body : String
deriving DecidableEq, Repr

/-- The library calls made by `modIDFromSlug` and `getModInfo`. A decoder
field gives the state of the variable `response` after
`json.NewDecoder(body).Decode(&response)`, the variable holding its zero value
before the call, together with the error the call returns. -/
structure Runtime where
  /-- The call `json.Marshal(request)`. -/
  jsonMarshal : addonSlugRequest → String × Option GoError
  /-- The call `http.NewRequest(method, url, body)`. -/
  httpNewRequest : String → String → Option String → HttpRequest × Option GoError
  /-- The call `client.Do(req)`. -/
  clientDo : HttpRequest → HttpResponse × Option GoError
  /-- Decoding a body into an `addonSlugResponse`. -/
  decodeSlug : String → addonSlugResponse × Option GoError
  /-- Decoding a body into the local response struct of `getModInfo`. -/
  decodeMod : String → getModInfo.ResponseT × Option GoError

/-! ## modIDFromSlug (lines 35-87) -/

/-- The raw string literal assigned to `Query` (lines 37-45). -/
def modIDFromSlug.query : String :=
  "\n\t\tquery getIDFromSlug($slug: String) \x7b\n\t\t\t\x7b\n\t\t\t\taddons(slug: $slug) \x7b\n\t\t\t\t\tid\n\t\t\t\t\x7d\n\t\t\t\x7d\n\t\t\x7d\n\t\t"

/-- Lines 36-47 of `modIDFromSlug`: the value of `request` once
`request.Variables.Slug = slug` has run. -/
def modIDFromSlug.request (slug : String) : addonSlugRequest :=
  let request : addonSlugRequest :=
    { Query := modIDFromSlug.query, Variables := { Slug := "" } }
  { request with Variables := { request.Variables with Slug := slug } }

/-- Lines 49-87 of `modIDFromSlug`: everything after `request` is built. -/
def modIDFromSlug.send (rt : Runtime) (request : addonSlugRequest) : Int × Option GoError :=
  let (requestBytes, err) := rt.jsonMarshal request
  if err ≠ none then (0, err) else
  let (req, err) := rt.httpNewRequest "POST" "https://curse.nikky.moe/graphql" (some requestBytes)
  if err ≠ none then (0, err) else
  let req := req.HeaderSet "User-Agent" "comp500/packwiz client"
  let req := req.HeaderSet "Accept" "application/json"
  let req := req.HeaderSet "Content-Type" "application/json"
  let (resp, err) := rt.clientDo req
  if err ≠ none then (0, err) else
  let (response, err) := rt.decodeSlug resp.Body
  if err ≠ none ∧ err ≠ some GoError.EOF then (0, err) else
  if response.Exception.utf8ByteSize > 0 ∨ response.Message.utf8ByteSize > 0 then
    (0, some (GoError.errorString ("Error requesting id for slug: " ++ response.Message)))
  else
  if h : response.Data.Addons.length < 1 then
    (0, some (GoError.errorString "Addon not found"))
  else
    ((response.Data.Addons.get ⟨0, by omega⟩).ID, none)

/-- The function `modIDFromSlug`. -/
def modIDFromSlug (rt : Runtime) (slug : String) : Int × Option GoError :=
  modIDFromSlug.send rt (modIDFromSlug.request slug)

/-! ## getModInfo (lines 123-161) -/

/-- The function `getModInfo`. -/
def getModInfo (rt : Runtime) (modid : Int) : modInfo × Option GoError :=
  let idStr := toString modid
  let (req, err) := rt.httpNewRequest "GET"
    ("https://staging_cursemeta.dries007.net/api/v3/direct/addon/" ++ idStr) none
  if err ≠ none then (modInfo.zero, err) else
  let req := req.HeaderSet "User-Agent" "comp500/packwiz client"
  let req := req.HeaderSet "Accept" "application/json"
  let (resp, err) := rt.clientDo req
  if err ≠ none then (modInfo.zero, err) else
  let (response, err) := rt.decodeMod resp.Body
  if err ≠ none ∧ err ≠ some GoError.EOF then (modInfo.zero, err) else
  if response.curseMetaError.Error then
    (modInfo.zero, some (GoError.errorString
      ("Error requesting mod metadata: " ++ response.curseMetaError.Description)))
  else
  if response.modInfo.ID ≠ modid then
    (modInfo.zero, some (GoError.errorString
      ("Unexpected addon ID in CurseForge response: " ++ toString modid ++ "/"
        ++ toString response.modInfo.ID)))
  else
    (response.modInfo, none)

/-! ## Runs of the two functions -/

/-- The `http.Request` that `modIDFromSlug` hands to `client.Do`: the value
`http.NewRequest` returned, after the three `Header.Set` calls. -/
def modIDFromSlug.sent (rt : Runtime) (slug : String) : HttpRequest :=
  (((rt.httpNewRequest "POST" "https://curse.nikky.moe/graphql"
      (some (rt.jsonMarshal (modIDFromSlug.request slug)).1)).1.HeaderSet
        "User-Agent" "comp500/packwiz client").HeaderSet
        "Accept" "application/json").HeaderSet "Content-Type" "application/json"

/-- The run of `modIDFromSlug rt slug` reaches line 73: `json.Marshal`,
`http.NewRequest` and `client.Do` return a nil error, and `Decode` leaves
`response` in the variable and returns `err`. -/
def SlugExchange (rt : Runtime) (slug : String) (response : addonSlugResponse)
    (err : Option GoError) : Prop :=
  (rt.jsonMarshal (modIDFromSlug.request slug)).2 = none ∧
  (rt.httpNewRequest "POST" "https://curse.nikky.moe/graphql"
      (some (rt.jsonMarshal (modIDFromSlug.request slug)).1)).2 = none ∧
  (rt.clientDo (modIDFromSlug.sent rt slug)).2 = none ∧
  rt.decodeSlug (rt.clientDo (modIDFromSlug.sent rt slug)).1.Body = (response, err)

instance (rt : Runtime) (slug : String) (response : addonSlugResponse) (err : Option GoError) :
    Decidable (SlugExchange rt slug response err) := by
  unfold SlugExchange; infer_instance

/-- The `http.Request` that `getModInfo` hands to `client.Do`. -/
def getModInfo.sent (rt : Runtime) (modid : Int) : HttpRequest :=
  ((rt.httpNewRequest "GET"
      ("https://staging_cursemeta.dries007.net/api/v3/direct/addon/" ++ toString modid)
      none).1.HeaderSet "User-Agent" "comp500/packwiz client").HeaderSet
        "Accept" "application/json"

/-- The run of `getModInfo rt modid` reaches line 147: `http.NewRequest` and
`client.Do` return a nil error, and `Decode` leaves `response` in the variable
and returns `err`. -/
def ModExchange (rt : Runtime) (modid : Int) (response : getModInfo.ResponseT)
    (err : Option GoError) : Prop :=
  (rt.httpNewRequest "GET"
      ("https://staging_cursemeta.dries007.net/api/v3/direct/addon/" ++ toString modid)
      none).2 = none ∧
  (rt.clientDo (getModInfo.sent rt modid)).2 = none ∧
  rt.decodeMod (rt.clientDo (getModInfo.sent rt modid)).1.Body = (response, err)

instance (rt : Runtime) (modid : Int) (response : getModInfo.ResponseT) (err : Option GoError) :
    Decidable (ModExchange rt modid response err) := by
  unfold ModExchange; infer_instance

/-- The run of `modIDFromSlug rt slug` reaches line 68 and `client.Do` returns
the non-nil error `e`. -/
def SlugTransportFails (rt : Runtime) (slug : String) (e : GoError) : Prop :=
  (rt.jsonMarshal (modIDFromSlug.request slug)).2 = none ∧
  (rt.httpNewRequest "POST" "https://curse.nikky.moe/graphql"
      (some (rt.jsonMarshal (modIDFromSlug.request slug)).1)).2 = none ∧
  (rt.clientDo (modIDFromSlug.sent rt slug)).2 = some e

instance (rt : Runtime) (slug : String) (e : GoError) :
    Decidable (SlugTransportFails rt slug e) := by
  unfold SlugTransportFails; infer_instance

/-- The run of `getModInfo rt modid` reaches line 142 and `client.Do` returns
the non-nil error `e`. -/
def ModTransportFails (rt : Runtime) (modid : Int) (e : GoError) : Prop :=
  (rt.httpNewRequest "GET"
      ("https://staging_cursemeta.dries007.net/api/v3/direct/addon/" ++ toString modid)
      none).2 = none ∧
  (rt.clientDo (getModInfo.sent rt modid)).2 = some e

instance (rt : Runtime) (modid : Int) (e : GoError) :
    Decidable (ModTransportFails rt modid e) := by
  unfold ModTransportFails; infer_instance

/-- The decoder's error is one the two functions let pass (lines 74 and 148):
nil or `io.EOF`. -/
def Accepted (err : Option GoError) : Prop :=
  err = none ∨ err = some GoError.EOF

instance (err : Option GoError) : Decidable (Accepted err) := by
  unfold Accepted; infer_instance

/-- The text `sub` occurs in the text `s`. -/
def Contains (s sub : String) : Prop :=
  sub.data <:+: s.data

instance (s sub : String) : Decidable (Contains s sub) := by
  unfold Contains; infer_instance

/-! ## Test runtimes -/

/-- A runtime in which marshalling and request construction succeed,
`client.Do` returns `transport`, and the decoders return the given results
whatever the body. -/
def stubRuntime (transport : HttpResponse × Option GoError)
    (slugAnswer : addonSlugResponse × Option GoError)
    (modAnswer : getModInfo.ResponseT × Option GoError) : Runtime :=
  { jsonMarshal := fun request =>
      ("query=" ++ request.Query ++ ";slug=" ++ request.Variables.Slug, none)
    httpNewRequest := fun method url body =>
      ({ Method := method, URL := url, Header := [], Body := body }, none)
    clientDo := fun _ => transport
    decodeSlug := fun _ => slugAnswer
    decodeMod := fun _ => modAnswer }

/-- A slug response holding the given addon ids, message and exception. -/
def slugResponse (ids : List Int) (exception message : String) : addonSlugResponse :=
  { Data := { Addons := ids.map (fun i => { ID := i }) }, Exception := exception,
    Message := message, Stacktrace := [] }

/-- A metadata response with the given id, error flag and description. -/
def modResponse (id : Int) (error : Bool) (description : String) : getModInfo.ResponseT :=
  { modInfo := { Name := "Just Enough Items", Slug := "jei", ID := id, LatestFiles := [],
                 GameVersionLatestFiles :=
                   [{ GameVersion := "1.12.2", ID := 2, Name := "jei.jar", FileType := 1 }] },
    curseMetaError := { Description := description, Error := error, Status := 0 } }

/-- The runtime of a served exchange: the transport succeeds with an empty
body and the decoders return the given results. -/
def served (slugAnswer : addonSlugResponse × Option GoError)
    (modAnswer : getModInfo.ResponseT × Option GoError) : Runtime :=
  stubRuntime ({ Body := "" }, none) slugAnswer modAnswer

/-- The decoded form of the body
`\x7b"error":true,"description":"not found","status":404\x7d`. -/
def notFoundResponse : getModInfo.ResponseT :=
  { modInfo := modInfo.zero,
    curseMetaError := { Description := "not found", Error := true, Status := 404 } }

/-- The runtime of an exchange whose body is empty: both decoders return
`io.EOF` and leave the response variable at its zero value. -/
def emptyBody : Runtime :=
  served (addonSlugResponse.zero, some GoError.EOF) (getModInfo.ResponseT.zero, some GoError.EOF)

/-- A runtime in which `client.Do` answers a POST with `post` and any other
request with `get`, the rest being as in `stubRuntime`. -/
def routed (post get : HttpResponse × Option GoError)
    (slugAnswer : addonSlugResponse × Option GoError)
    (modAnswer : getModInfo.ResponseT × Option GoError) : Runtime :=
  { stubRuntime get slugAnswer modAnswer with
    clientDo := fun req => if req.Method = "POST" then post else get }

/-- The error `client.Do` returns when the slug service refuses the connection. -/
def postRefused : GoError :=
  GoError.library "net/url"
    "Post \"https://curse.nikky.moe/graphql\": dial tcp: connect: connection refused"

/-- The error `client.Do` returns when the metadata service refuses the
connection to the request of id 238222. -/
def getRefused : GoError :=
  GoError.library "net/url"
    "Get \"https://staging_cursemeta.dries007.net/api/v3/direct/addon/238222\": dial tcp: connect: connection refused"

/-- The error `io.ErrUnexpectedEOF`, which the decoder returns for a body that
stops inside a JSON value; it is not the sentinel `io.EOF`. -/
def errUnexpectedEOF : GoError :=
  GoError.library "io" "unexpected EOF"

/-- Only the slug service is down: the POST fails, the GET is served. -/
def slugOffline : Runtime :=
  routed ({ Body := "" }, some postRefused) ({ Body := "" }, none)
    (slugResponse [238222] "" "", none) (modResponse 238222 false "", none)

/-- Only the metadata service is down: the GET fails, the POST is served. -/
def modOffline : Runtime :=
  routed ({ Body := "" }, none) ({ Body := "" }, some getRefused)
    (slugResponse [238222] "" "", none) (modResponse 238222 false "", none)

/-- Only the slug service sends a truncated body. -/
def slugTruncated : Runtime :=
  served (addonSlugResponse.zero, some errUnexpectedEOF) (modResponse 238222 false "", none)

/-- Only the metadata service sends a truncated body. -/
def modTruncated : Runtime :=
  served (slugResponse [238222] "" "", none) (getModInfo.ResponseT.zero, some errUnexpectedEOF)

/-- The error the decoder returns for the slug body
`\x7b"data":\x7b"addons":[\x7b"id":7\x7d]\x7d,"message":5\x7d`, whose message is a number. -/
def errMistyped : GoError :=
  GoError.library "encoding/json"
    "json: cannot unmarshal number into Go struct field addonSlugResponse.message of type string"

/-- Only the slug service sends a body with a mistyped field: the decoder
fills in the addon list and returns `errMistyped`. -/
def slugMistyped : Runtime :=
  served (slugResponse [7] "" "", some errMistyped) (modResponse 238222 false "", none)

/-- Only the slug service sends an empty body. -/
def slugEmpty : Runtime :=
  served (addonSlugResponse.zero, some GoError.EOF) (modResponse 238222 false "", none)

/-- Only the metadata service sends an empty body. -/
def modEmpty : Runtime :=
  served (slugResponse [238222] "" "", none) (getModInfo.ResponseT.zero, some GoError.EOF)

/-! ## Auxiliary lemmas -/

theorem utf8ByteSize_pos_iff (s : String) : s.utf8ByteSize > 0 ↔ s ≠ "" := by
  obtain ⟨cs⟩ := s
  cases cs with
  | nil => simp [String.utf8ByteSize, String.utf8ByteSize.go]
  | cons c cs =>
    have hc := Char.utf8Size_pos c
    have hne : (String.mk (c :: cs)) ≠ "" := by
      intro h
      have := congrArg String.data h
      simp at this
    simp only [gt_iff_lt, ne_eq, hne, not_false_eq_true, iff_true]
    show 0 < String.utf8ByteSize.go (c :: cs)
    simp only [String.utf8ByteSize.go]
    omega

/-- Lines 74-87 of `modIDFromSlug`, reached whenever the exchange gets to the decoder. -/
theorem modIDFromSlug_exchange (rt : Runtime) (slug : String) (response : addonSlugResponse)
    (err : Option GoError) (hx : SlugExchange rt slug response err) :
    modIDFromSlug rt slug =
      if err ≠ none ∧ err ≠ some GoError.EOF then (0, err)
      else if response.Exception ≠ "" ∨ response.Message ≠ "" then
        (0, some (GoError.errorString ("Error requesting id for slug: " ++ response.Message)))
      else match response.Data.Addons with
        | [] => (0, some (GoError.errorString "Addon not found"))
        | a :: _ => (a.ID, none) := by
  obtain ⟨h1, h2, h3, h4⟩ := hx
  unfold modIDFromSlug.sent at h3 h4
  simp only [modIDFromSlug, modIDFromSlug.send, h1, h2, h3, h4, List.get_eq_getElem,
    utf8ByteSize_pos_iff]
  obtain ⟨⟨addons⟩, exc, msg, st⟩ := response
  cases addons <;> simp

/-- Lines 148-160 of `getModInfo`, reached whenever the exchange gets to the decoder. -/
theorem getModInfo_exchange (rt : Runtime) (modid : Int) (response : getModInfo.ResponseT)
    (err : Option GoError) (hx : ModExchange rt modid response err) :
    getModInfo rt modid =
      if err ≠ none ∧ err ≠ some GoError.EOF then (modInfo.zero, err)
      else if response.curseMetaError.Error = true then
        (modInfo.zero, some (GoError.errorString
          ("Error requesting mod metadata: " ++ response.curseMetaError.Description)))
      else if response.modInfo.ID ≠ modid then
        (modInfo.zero, some (GoError.errorString
          ("Unexpected addon ID in CurseForge response: " ++ toString modid ++ "/"
            ++ toString response.modInfo.ID)))
      else (response.modInfo, none) := by
  obtain ⟨h1, h2, h3⟩ := hx
  unfold getModInfo.sent at h2 h3
  simp only [getModInfo, h1, h2, h3]
  rfl

theorem not_rejected_of_accepted (err : Option GoError) (hacc : Accepted err) :
    ¬ (err ≠ none ∧ err ≠ some GoError.EOF) := by
  rcases hacc with h | h <;> simp [h]

theorem not_rejected_of_eof_free (e : GoError) (hne : e ≠ GoError.EOF) :
    (some e ≠ none ∧ some e ≠ some GoError.EOF) := by
  simp [hne]

/-- Lines 68-71 of `modIDFromSlug`: a non-nil error of `client.Do` is returned. -/
theorem modIDFromSlug_transport (rt : Runtime) (slug : String) (e : GoError)
    (ht : SlugTransportFails rt slug e) : modIDFromSlug rt slug = (0, some e) := by
  obtain ⟨h1, h2, h3⟩ := ht
  unfold modIDFromSlug.sent at h3
  simp only [modIDFromSlug, modIDFromSlug.send, h1, h2, h3]
  simp

/-- Lines 142-145 of `getModInfo`: a non-nil error of `client.Do` is returned. -/
theorem getModInfo_transport (rt : Runtime) (modid : Int) (e : GoError)
    (ht : ModTransportFails rt modid e) : getModInfo rt modid = (modInfo.zero, some e) := by
  obtain ⟨h1, h2⟩ := ht
  unfold getModInfo.sent at h2
  simp only [getModInfo, h1, h2]
  simp

/-! ## The claims -/

/-- C1: when the decoded slug response has empty exception and message fields
and a non-empty addon list, `modIDFromSlug` succeeds (nil error) and returns
the id of the first addon of the list, whatever follows it in the list. -/
theorem modIDFromSlug_first_addon (rt : Runtime) (slug : String)
    (response : addonSlugResponse) (err : Option GoError)
    (a : addonSlugResponse.AddonT) (rest : List addonSlugResponse.AddonT)
    (hx : SlugExchange rt slug response err) (hacc : Accepted err)
    (hexc : response.Exception = "") (hmsg : response.Message = "")
    (haddons : response.Data.Addons = a :: rest) :
    modIDFromSlug rt slug = (a.ID, none) := by
  rw [modIDFromSlug_exchange rt slug response err hx,
    if_neg (not_rejected_of_accepted err hacc)]
  simp [hexc, hmsg, haddons]

theorem modIDFromSlug_first_addon_witness :
    SlugExchange (served (slugResponse [238222, 17] "" "", none) (modResponse 0 false "", none))
        "jei" (slugResponse [238222, 17] "" "") none ∧
      modIDFromSlug (served (slugResponse [238222, 17] "" "", none) (modResponse 0 false "", none))
        "jei" = (238222, none) :=
  ⟨by decide,
   modIDFromSlug_first_addon
    (served (slugResponse [238222, 17] "" "", none) (modResponse 0 false "", none)) "jei"
    (slugResponse [238222, 17] "" "") none ⟨238222⟩ [⟨17⟩]
    (by decide) (by decide) (by decide) (by decide) (by decide)⟩

/-- C2: round trip. When the decoded metadata response has a false error flag
and its id equals the requested id, `getModInfo` succeeds and returns the
decoded record itself: name, slug, id, latestFiles and gameVersionLatestFiles
are those of the decoded response. -/
theorem getModInfo_round_trip (rt : Runtime) (modid : Int)
    (response : getModInfo.ResponseT) (err : Option GoError)
    (hx : ModExchange rt modid response err) (hacc : Accepted err)
    (herror : response.curseMetaError.Error = false)
    (hid : response.modInfo.ID = modid) :
    (getModInfo rt modid).2 = none ∧
    (getModInfo rt modid).1 = response.modInfo ∧
    (getModInfo rt modid).1.Name = response.modInfo.Name ∧
    (getModInfo rt modid).1.Slug = response.modInfo.Slug ∧
    (getModInfo rt modid).1.ID = response.modInfo.ID ∧
    (getModInfo rt modid).1.LatestFiles = response.modInfo.LatestFiles ∧
    (getModInfo rt modid).1.GameVersionLatestFiles =
      response.modInfo.GameVersionLatestFiles := by
  have h : getModInfo rt modid = (response.modInfo, none) := by
    rw [getModInfo_exchange rt modid response err hx,
      if_neg (not_rejected_of_accepted err hacc)]
    simp [herror, hid]
  simp [h]

theorem getModInfo_round_trip_witness :
    ModExchange (served (slugResponse [] "" "", none) (modResponse 238222 false "", none))
        238222 (modResponse 238222 false "") none ∧
      (getModInfo (served (slugResponse [] "" "", none) (modResponse 238222 false "", none))
        238222).1.Name = "Just Enough Items" :=
  ⟨by decide,
   (getModInfo_round_trip
    (served (slugResponse [] "" "", none) (modResponse 238222 false "", none)) 238222
    (modResponse 238222 false "") none (by decide) (by decide) (by decide) (by decide)).2.2.1⟩

/-- C3: when the decoded slug response has a non-empty message field,
`modIDFromSlug` fails with the error whose text is
"Error requesting id for slug: " followed by exactly that message, whatever
the addon list and the exception field hold. -/
theorem modIDFromSlug_message (rt : Runtime) (slug : String)
    (response : addonSlugResponse) (err : Option GoError)
    (hx : SlugExchange rt slug response err) (hacc : Accepted err)
    (hmsg : response.Message ≠ "") :
    modIDFromSlug rt slug =
      (0, some (GoError.errorString ("Error requesting id for slug: " ++ response.Message))) := by
  rw [modIDFromSlug_exchange rt slug response err hx,
    if_neg (not_rejected_of_accepted err hacc), if_pos (Or.inr hmsg)]

theorem modIDFromSlug_message_witness :
    modIDFromSlug (served (slugResponse [238222, 17] "" "rate limited", none)
        (modResponse 0 false "", none)) "jei" =
      (0, some (GoError.errorString "Error requesting id for slug: rate limited")) :=
  modIDFromSlug_message
    (served (slugResponse [238222, 17] "" "rate limited", none) (modResponse 0 false "", none))
    "jei" (slugResponse [238222, 17] "" "rate limited") none
    (by decide) (by decide) (by decide)

/-- C4: when the decoded metadata response has a true error flag, `getModInfo`
fails with the error whose text is "Error requesting mod metadata: " followed
by the response's description, whether or not the decoded id equals the
requested id. -/
theorem getModInfo_error_flag (rt : Runtime) (modid : Int)
    (response : getModInfo.ResponseT) (err : Option GoError)
    (hx : ModExchange rt modid response err) (hacc : Accepted err)
    (herror : response.curseMetaError.Error = true) :
    getModInfo rt modid =
      (modInfo.zero, some (GoError.errorString
        ("Error requesting mod metadata: " ++ response.curseMetaError.Description))) := by
  rw [getModInfo_exchange rt modid response err hx,
    if_neg (not_rejected_of_accepted err hacc), if_pos herror]

theorem getModInfo_error_flag_witness :
    getModInfo (served (slugResponse [] "" "", none) (modResponse 0 true "not found", none)) 1 =
        (modInfo.zero, some (GoError.errorString "Error requesting mod metadata: not found")) ∧
      getModInfo (served (slugResponse [] "" "", none) (modResponse 1 true "not found", none)) 1 =
        (modInfo.zero, some (GoError.errorString "Error requesting mod metadata: not found")) :=
  ⟨getModInfo_error_flag
    (served (slugResponse [] "" "", none) (modResponse 0 true "not found", none)) 1
    (modResponse 0 true "not found") none (by decide) (by decide) (by decide),
   getModInfo_error_flag
    (served (slugResponse [] "" "", none) (modResponse 1 true "not found", none)) 1
    (modResponse 1 true "not found") none (by decide) (by decide) (by decide)⟩

/-- C5 as stated fails: on the response decoded from
`\x7b"error":true,"description":"not found","status":404\x7d` to the request of
id 1, the decoded id 0 differs from the requested id, and `getModInfo` fails
with the error made from the description, not with the error reporting the two
ids. -/
theorem getModInfo_id_mismatch_counterexample :
    ModExchange (served (slugResponse [] "" "", none) (notFoundResponse, none)) 1
        notFoundResponse none ∧
      notFoundResponse.modInfo.ID ≠ 1 ∧
      getModInfo (served (slugResponse [] "" "", none) (notFoundResponse, none)) 1 =
        (modInfo.zero, some (GoError.errorString "Error requesting mod metadata: not found")) ∧
      getModInfo (served (slugResponse [] "" "", none) (notFoundResponse, none)) 1 ≠
        (modInfo.zero,
          some (GoError.errorString "Unexpected addon ID in CurseForge response: 1/0")) := by
  decide

/-- C5, amended: when the decoded metadata response has a false error flag and
its id differs from the requested id, `getModInfo` fails with the error whose
text reports the requested and the returned id. -/
theorem getModInfo_id_mismatch (rt : Runtime) (modid : Int)
    (response : getModInfo.ResponseT) (err : Option GoError)
    (hx : ModExchange rt modid response err) (hacc : Accepted err)
    (herror : response.curseMetaError.Error = false)
    (hid : response.modInfo.ID ≠ modid) :
    getModInfo rt modid =
      (modInfo.zero, some (GoError.errorString
        ("Unexpected addon ID in CurseForge response: " ++ toString modid ++ "/"
          ++ toString response.modInfo.ID))) := by
  rw [getModInfo_exchange rt modid response err hx,
    if_neg (not_rejected_of_accepted err hacc)]
  simp [herror, hid]

theorem getModInfo_id_mismatch_witness :
    getModInfo (served (slugResponse [] "" "", none) (modResponse 7 false "", none)) 5 =
      (modInfo.zero,
        some (GoError.errorString "Unexpected addon ID in CurseForge response: 5/7")) :=
  getModInfo_id_mismatch
    (served (slugResponse [] "" "", none) (modResponse 7 false "", none)) 5
    (modResponse 7 false "") none (by decide) (by decide) (by decide) (by decide)

/-- C6 as stated fails: on a decoded slug response with an empty addon list and
the message "rate limited", `modIDFromSlug` fails with the error made from the
message, not with "Addon not found". -/
theorem modIDFromSlug_empty_list_counterexample :
    SlugExchange (served (slugResponse [] "" "rate limited", none) (modResponse 0 false "", none))
        "jei" (slugResponse [] "" "rate limited") none ∧
      (slugResponse [] "" "rate limited").Data.Addons = [] ∧
      modIDFromSlug (served (slugResponse [] "" "rate limited", none)
          (modResponse 0 false "", none)) "jei" =
        (0, some (GoError.errorString "Error requesting id for slug: rate limited")) ∧
      modIDFromSlug (served (slugResponse [] "" "rate limited", none)
          (modResponse 0 false "", none)) "jei" ≠
        (0, some (GoError.errorString "Addon not found")) := by
  decide

/-- C6, amended: when the decoded slug response has empty exception and message
fields and an empty addon list, `modIDFromSlug` fails with the error
"Addon not found". -/
theorem modIDFromSlug_not_found (rt : Runtime) (slug : String)
    (response : addonSlugResponse) (err : Option GoError)
    (hx : SlugExchange rt slug response err) (hacc : Accepted err)
    (hexc : response.Exception = "") (hmsg : response.Message = "")
    (haddons : response.Data.Addons = []) :
    modIDFromSlug rt slug = (0, some (GoError.errorString "Addon not found")) := by
  rw [modIDFromSlug_exchange rt slug response err hx,
    if_neg (not_rejected_of_accepted err hacc)]
  simp [hexc, hmsg, haddons]

theorem modIDFromSlug_not_found_witness :
    modIDFromSlug (served (slugResponse [] "" "", none) (modResponse 0 false "", none))
        "no-such-mod" = (0, some (GoError.errorString "Addon not found")) :=
  modIDFromSlug_not_found
    (served (slugResponse [] "" "", none) (modResponse 0 false "", none)) "no-such-mod"
    (slugResponse [] "" "") none (by decide) (by decide) (by decide) (by decide) (by decide)

/-- C7 as stated fails: on a decoded slug response with the exception
"java.lang.NullPointerException" and an empty message, the text of the error
`modIDFromSlug` returns is "Error requesting id for slug: ", in which the
exception text does not occur. -/
theorem modIDFromSlug_exception_counterexample :
    SlugExchange (served (slugResponse [] "java.lang.NullPointerException" "", none)
        (modResponse 0 false "", none)) "jei"
        (slugResponse [] "java.lang.NullPointerException" "") none ∧
      modIDFromSlug (served (slugResponse [] "java.lang.NullPointerException" "", none)
          (modResponse 0 false "", none)) "jei" =
        (0, some (GoError.errorString "Error requesting id for slug: ")) ∧
      ¬ Contains (GoError.errorString "Error requesting id for slug: ").Error
          "java.lang.NullPointerException" := by
  decide

/-- C7, amended: when the decoded slug response has a non-empty exception field
or a non-empty message field, `modIDFromSlug` fails with the error whose text
is "Error requesting id for slug: " followed by the message field, so the text
carries the message; the exception field is not put into the text. -/
theorem modIDFromSlug_exception_or_message (rt : Runtime) (slug : String)
    (response : addonSlugResponse) (err : Option GoError)
    (hx : SlugExchange rt slug response err) (hacc : Accepted err)
    (hfault : response.Exception ≠ "" ∨ response.Message ≠ "") :
    modIDFromSlug rt slug =
        (0, some (GoError.errorString ("Error requesting id for slug: " ++ response.Message))) ∧
      Contains (GoError.errorString ("Error requesting id for slug: " ++ response.Message)).Error
        response.Message := by
  constructor
  · rw [modIDFromSlug_exchange rt slug response err hx,
      if_neg (not_rejected_of_accepted err hacc), if_pos hfault]
  · show response.Message.data <:+: ("Error requesting id for slug: " ++ response.Message).data
    rw [String.data_append]
    exact (List.suffix_append _ _).isInfix

theorem modIDFromSlug_exception_or_message_witness :
    modIDFromSlug (served (slugResponse [] "java.lang.NullPointerException" "", none)
          (modResponse 0 false "", none)) "jei" =
        (0, some (GoError.errorString "Error requesting id for slug: ")) ∧
      modIDFromSlug (served (slugResponse [] "IllegalStateException" "no such addon", none)
          (modResponse 0 false "", none)) "jei" =
        (0, some (GoError.errorString "Error requesting id for slug: no such addon")) :=
  ⟨(modIDFromSlug_exception_or_message
      (served (slugResponse [] "java.lang.NullPointerException" "", none)
        (modResponse 0 false "", none)) "jei"
      (slugResponse [] "java.lang.NullPointerException" "") none
      (by decide) (by decide) (by decide)).1,
   (modIDFromSlug_exception_or_message
      (served (slugResponse [] "IllegalStateException" "no such addon", none)
        (modResponse 0 false "", none)) "jei"
      (slugResponse [] "IllegalStateException" "no such addon") none
      (by decide) (by decide) (by decide)).1⟩

/-- C8: the request `modIDFromSlug` builds has the same query text for every
two slugs (the constant literal of lines 37-45), its `Variables.Slug` field is
the given slug, and the rest of the function sees the slug in that field only. -/
theorem modIDFromSlug_request_binds_slug (s1 s2 : String) :
    (modIDFromSlug.request s1).Query = (modIDFromSlug.request s2).Query ∧
    (modIDFromSlug.request s1).Query = modIDFromSlug.query ∧
    (modIDFromSlug.request s1).Variables.Slug = s1 ∧
    (modIDFromSlug.request s2).Variables.Slug = s2 ∧
    ∀ rt : Runtime, modIDFromSlug rt s1 =
      modIDFromSlug.send rt { Query := modIDFromSlug.query, Variables := { Slug := s1 } } :=
  ⟨rfl, rfl, rfl, rfl, fun _ => rfl⟩

/-- C9 as stated fails: on an empty body the decoders return `io.EOF` and leave
the response zero-valued; `modIDFromSlug` then fails with "Addon not found" and
`getModInfo 238222` with the error reporting the ids 238222 and 0, neither with
the decoder's error. -/
theorem decode_eof_counterexample :
    SlugExchange emptyBody "jei" addonSlugResponse.zero (some GoError.EOF) ∧
      ModExchange emptyBody 238222 getModInfo.ResponseT.zero (some GoError.EOF) ∧
      modIDFromSlug emptyBody "jei" = (0, some (GoError.errorString "Addon not found")) ∧
      modIDFromSlug emptyBody "jei" ≠ (0, some GoError.EOF) ∧
      getModInfo emptyBody 238222 =
        (modInfo.zero,
          some (GoError.errorString "Unexpected addon ID in CurseForge response: 238222/0")) ∧
      getModInfo emptyBody 238222 ≠ (modInfo.zero, some GoError.EOF) := by
  decide

/-- C9, amended: each of the following holds on its own, for every runtime.
When the decoder of `modIDFromSlug` returns an error other than `io.EOF`,
`modIDFromSlug` fails with that error; likewise `getModInfo` with its decoder.
When the decoder of `modIDFromSlug` returns `io.EOF` and leaves the response
zero-valued (an empty body), the zero response is inspected and
`modIDFromSlug` fails with "Addon not found"; when the decoder of `getModInfo`
does so and the requested id is not 0, `getModInfo` fails with the error
reporting the requested id and 0. -/
theorem decode_failure_outcomes :
    (∀ (rt : Runtime) (slug : String) (response : addonSlugResponse) (e : GoError),
      SlugExchange rt slug response (some e) → e ≠ GoError.EOF →
        modIDFromSlug rt slug = (0, some e)) ∧
    (∀ (rt : Runtime) (modid : Int) (response : getModInfo.ResponseT) (e : GoError),
      ModExchange rt modid response (some e) → e ≠ GoError.EOF →
        getModInfo rt modid = (modInfo.zero, some e)) ∧
    (∀ (rt : Runtime) (slug : String),
      SlugExchange rt slug addonSlugResponse.zero (some GoError.EOF) →
        modIDFromSlug rt slug = (0, some (GoError.errorString "Addon not found"))) ∧
    (∀ (rt : Runtime) (modid : Int),
      ModExchange rt modid getModInfo.ResponseT.zero (some GoError.EOF) → modid ≠ 0 →
        getModInfo rt modid =
          (modInfo.zero, some (GoError.errorString
            ("Unexpected addon ID in CurseForge response: " ++ toString modid ++ "/"
              ++ toString (0 : Int))))) := by
  refine ⟨?_, ?_, ?_, ?_⟩
  · intro rt slug response e hx hne
    rw [modIDFromSlug_exchange rt slug response (some e) hx,
      if_pos (not_rejected_of_eof_free e hne)]
  · intro rt modid response e hx hne
    rw [getModInfo_exchange rt modid response (some e) hx,
      if_pos (not_rejected_of_eof_free e hne)]
  · intro rt slug hx
    rw [modIDFromSlug_exchange rt slug _ _ hx]
    simp [addonSlugResponse.zero]
  · intro rt modid hx hid
    rw [getModInfo_exchange rt modid _ _ hx]
    simp [getModInfo.ResponseT.zero, curseMetaError.zero, modInfo.zero, Ne.symm hid]

theorem decode_failure_outcomes_witness :
    (modIDFromSlug slugTruncated "jei" = (0, some errUnexpectedEOF) ∧
      (getModInfo slugTruncated 238222).2 = none) ∧
    (getModInfo modTruncated 238222 = (modInfo.zero, some errUnexpectedEOF) ∧
      modIDFromSlug modTruncated "jei" = (238222, none)) ∧
    (modIDFromSlug slugEmpty "jei" = (0, some (GoError.errorString "Addon not found")) ∧
      (getModInfo slugEmpty 238222).2 = none) ∧
    (getModInfo modEmpty 238222 =
        (modInfo.zero,
          some (GoError.errorString "Unexpected addon ID in CurseForge response: 238222/0")) ∧
      modIDFromSlug modEmpty "jei" = (238222, none)) :=
  ⟨⟨decode_failure_outcomes.1 slugTruncated "jei" addonSlugResponse.zero errUnexpectedEOF
      (by decide) (by decide), by decide⟩,
   ⟨decode_failure_outcomes.2.1 modTruncated 238222 getModInfo.ResponseT.zero errUnexpectedEOF
      (by decide) (by decide), by decide⟩,
   ⟨decode_failure_outcomes.2.2.1 slugEmpty "jei" (by decide), by decide⟩,
   ⟨decode_failure_outcomes.2.2.2 modEmpty 238222 (by decide) (by decide), by decide⟩⟩

/-- C10: each of the following holds on its own, for every runtime. When
`client.Do` returns an error to `modIDFromSlug`, `modIDFromSlug` returns the
zero id with exactly that error, whatever the decoder would make of a body;
likewise `getModInfo` returns the empty record with exactly that error. When
the decoder of `modIDFromSlug` returns an error other than `io.EOF`,
`modIDFromSlug` returns the zero id with exactly that error, whatever the
decoder left in the response; likewise `getModInfo` with the empty record. -/
theorem failures_propagate :
    (∀ (rt : Runtime) (slug : String) (e : GoError),
      SlugTransportFails rt slug e → modIDFromSlug rt slug = (0, some e)) ∧
    (∀ (rt : Runtime) (modid : Int) (e : GoError),
      ModTransportFails rt modid e → getModInfo rt modid = (modInfo.zero, some e)) ∧
    (∀ (rt : Runtime) (slug : String) (response : addonSlugResponse) (e : GoError),
      SlugExchange rt slug response (some e) → e ≠ GoError.EOF →
        modIDFromSlug rt slug = (0, some e)) ∧
    (∀ (rt : Runtime) (modid : Int) (response : getModInfo.ResponseT) (e : GoError),
      ModExchange rt modid response (some e) → e ≠ GoError.EOF →
        getModInfo rt modid = (modInfo.zero, some e)) := by
  refine ⟨modIDFromSlug_transport, getModInfo_transport, ?_, ?_⟩
  · intro rt slug response e hx hne
    rw [modIDFromSlug_exchange rt slug response (some e) hx,
      if_pos (not_rejected_of_eof_free e hne)]
  · intro rt modid response e hx hne
    rw [getModInfo_exchange rt modid response (some e) hx,
      if_pos (not_rejected_of_eof_free e hne)]

theorem failures_propagate_witness :
    (modIDFromSlug slugOffline "jei" = (0, some postRefused) ∧
      (getModInfo slugOffline 238222).2 = none) ∧
    (getModInfo modOffline 238222 = (modInfo.zero, some getRefused) ∧
      modIDFromSlug modOffline "jei" = (238222, none)) ∧
    (modIDFromSlug slugMistyped "jei" = (0, some errMistyped) ∧
      (getModInfo slugMistyped 238222).2 = none) ∧
    (getModInfo modTruncated 238222 = (modInfo.zero, some errUnexpectedEOF) ∧
      modIDFromSlug modTruncated "jei" = (238222, none)) :=
  ⟨⟨failures_propagate.1 slugOffline "jei" postRefused (by decide), by decide⟩,
   ⟨failures_propagate.2.1 modOffline 238222 getRefused (by decide), by decide⟩,
   ⟨failures_propagate.2.2.1 slugMistyped "jei" (slugResponse [7] "" "") errMistyped
      (by decide) (by decide), by decide⟩,
   ⟨failures_propagate.2.2.2 modTruncated 238222 getModInfo.ResponseT.zero errUnexpectedEOF
      (by decide) (by decide), by decide⟩⟩

end Curseforge
